import Mathlib

/-
Shallow embedding of the Anchor program `reward_system`
(src/programs/reward-system/src/lib.rs) and verification of its
natural-language specification.

Modelling conventions:
- `u64` values are `Nat`; every arithmetic step of the source that is
  checked (`checked_add` / `checked_mul`) is embedded with an explicit
  `< 2^64` test; `.unwrap()` on `None` panics in Rust, aborting the whole
  transaction, and is embedded as the failure outcome
  `ErrorKind.arithmeticOverflow`.
- `i64` timestamps are `Int`; the Rust cast `as u64` is the wrapping cast
  modulo `2 ^ 64` (`i64_as_u64`), and Rust `i64` division truncates toward
  zero (`Int.tdiv`).
- Fallible instructions return `Except ErrorKind _`; the new account
  states appear only in the `.ok` payload, so an error leaves the caller's
  state untouched, exactly as a failed Solana transaction does.
- The token-transfer CPI is an external collaborator; its outcome is a
  `Bool` parameter (`transfer_ok`), and the amount handed to it is
  returned in the `.ok` payload.
-/

namespace RewardSystem

deriving instance DecidableEq for Except

/-- Modulus of `u64` arithmetic. -/
def U64_MOD : Nat := 2 ^ 64

/-- Rust `u64::checked_add`. -/
def u64_checked_add (a b : Nat) : Option Nat :=
  if a + b < U64_MOD then some (a + b) else none

/-- Rust `u64::checked_mul`. -/
def u64_checked_mul (a b : Nat) : Option Nat :=
  if a * b < U64_MOD then some (a * b) else none

/-- Rust `as u64` cast of an `i64` value: wraps modulo `2 ^ 64`. -/
def i64_as_u64 (v : Int) : Nat := (v % (U64_MOD : Int)).toNat

/-- Pubkeys are opaque identities; an abstract `Nat` suffices. -/
abbrev Pubkey := Nat

/-- The `RewardPool` account, fields exactly as in the source. -/
structure RewardPool where
  authority : Pubkey
  mint : Pubkey
  vault : Pubkey
  reward_rate_per_hour : Nat
  min_claim_interval_hours : Nat
  max_daily_reward : Nat
  total_distributed : Nat
  participant_count : Nat
  is_active : Bool
  created_at : Int
  bump : Nat
deriving DecidableEq, Repr

/-- The `UserAccount` account, fields exactly as in the source. -/
structure UserAccount where
  authority : Pubkey
  total_earned : Nat
  total_claims : Nat
  last_claim_timestamp : Int
  registration_timestamp : Int
  is_active : Bool
  bump : Nat
deriving DecidableEq, Repr

/-- Failure outcomes of the instructions.  The first five are the
variants of the source's `ErrorCode` enum; `arithmeticOverflow` models the
panic of `.unwrap()` on checked arithmetic returning `None` (the spec's
arithmetic-error kind); `transferFailed` models a failing token-transfer
CPI propagated by `?`. -/
inductive ErrorKind where
  | poolNotActive
  | userNotActive
  | claimTooSoon
  | amountMismatch
  | noRewardsAvailable
  | arithmeticOverflow
  | transferFailed
deriving DecidableEq, Repr

/-- `initialize_pool`: builds the fresh pool record written by the
instruction (mutable context fields are the arguments). -/
def initialize_pool (authority mint vault : Pubkey)
    (reward_rate_per_hour min_claim_interval_hours max_daily_reward : Nat)
    (now : Int) (bump : Nat) : RewardPool :=
  { authority := authority
    mint := mint
    vault := vault
    reward_rate_per_hour := reward_rate_per_hour
    min_claim_interval_hours := min_claim_interval_hours
    max_daily_reward := max_daily_reward
    total_distributed := 0
    participant_count := 0
    is_active := true
    created_at := now
    bump := bump }

/-- `register_user`: creates the fresh user record and bumps the pool's
`participant_count` (`checked_add(1).unwrap()`; the panic on overflow is
the `arithmeticOverflow` outcome). -/
def register_user (authority : Pubkey) (pool : RewardPool) (now : Int)
    (bump : Nat) : Except ErrorKind (UserAccount × RewardPool) :=
  match u64_checked_add pool.participant_count 1 with
  | none => .error .arithmeticOverflow
  | some c =>
    .ok ({ authority := authority
           total_earned := 0
           total_claims := 0
           last_claim_timestamp := 0
           registration_timestamp := now
           is_active := true
           bump := bump },
         { pool with participant_count := c })

/-- Elapsed whole hours as the source computes them:
`((current_timestamp - reference) / 3600) as u64`, with Rust's truncating
`i64` division and wrapping cast; the reference is
`registration_timestamp` when `last_claim_timestamp == 0`, else
`last_claim_timestamp`.  The subtraction is embedded as exact `Int`
subtraction; it is faithful to the source's `i64` subtraction only while
the difference has magnitude below `2^63` (beyond that the source itself
overflows before dividing), so theorems about this value carry that
bound. -/
def hours_since_last_claim (user : UserAccount) (now : Int) : Nat :=
  if user.last_claim_timestamp = 0 then
    i64_as_u64 ((now - user.registration_timestamp).tdiv 3600)
  else
    i64_as_u64 ((now - user.last_claim_timestamp).tdiv 3600)

/-- `calculate_rewards`: activity gates, elapsed-hours computation,
interval gate, then `checked_mul(rate).unwrap().min(max_daily_reward)`. -/
def calculate_rewards (pool : RewardPool) (user : UserAccount)
    (now : Int) : Except ErrorKind Nat :=
  if pool.is_active then
    if user.is_active then
      let hours := hours_since_last_claim user now
      if hours < pool.min_claim_interval_hours then .error .claimTooSoon
      else
        match u64_checked_mul hours pool.reward_rate_per_hour with
        | none => .error .arithmeticOverflow
        | some m => .ok (min m pool.max_daily_reward)
    else .error .userNotActive
  else .error .poolNotActive

/-- `claim_rewards`: repeats the computation of `calculate_rewards`
inline (as the source does), checks `expected_amount == reward_amount`,
checks `reward_amount > 0`, performs the token transfer, then applies the
checked counter increments and timestamp update.  The `.ok` payload is
(new user account, new pool, transferred amount). -/
def claim_rewards (pool : RewardPool) (user : UserAccount) (now : Int)
    (expected_amount : Nat) (transfer_ok : Bool) :
    Except ErrorKind (UserAccount × RewardPool × Nat) :=
  if pool.is_active then
    if user.is_active then
      let hours := hours_since_last_claim user now
      if hours < pool.min_claim_interval_hours then .error .claimTooSoon
      else
        match u64_checked_mul hours pool.reward_rate_per_hour with
        | none => .error .arithmeticOverflow
        | some m =>
          let reward_amount := min m pool.max_daily_reward
          if expected_amount = reward_amount then
            if reward_amount > 0 then
              if transfer_ok then
                match u64_checked_add user.total_earned reward_amount with
                | none => .error .arithmeticOverflow
                | some te =>
                  match u64_checked_add user.total_claims 1 with
                  | none => .error .arithmeticOverflow
                  | some tc =>
                    match u64_checked_add pool.total_distributed reward_amount with
                    | none => .error .arithmeticOverflow
                    | some td =>
                      .ok ({ user with
                              total_earned := te
                              total_claims := tc
                              last_claim_timestamp := now },
                           { pool with total_distributed := td },
                           reward_amount)
              else .error .transferFailed
            else .error .noRewardsAvailable
          else .error .amountMismatch
    else .error .userNotActive
  else .error .poolNotActive

/-- `update_pool_config`: each `Option` parameter independently replaces
its pool field when `Some` and leaves it unchanged when `None`. -/
def update_pool_config (pool : RewardPool)
    (reward_rate_per_hour min_claim_interval_hours max_daily_reward : Option Nat)
    (is_active : Option Bool) : RewardPool :=
  let pool := match reward_rate_per_hour with
    | some rate => { pool with reward_rate_per_hour := rate }
    | none => pool
  let pool := match min_claim_interval_hours with
    | some interval => { pool with min_claim_interval_hours := interval }
    | none => pool
  let pool := match max_daily_reward with
    | some max_reward => { pool with max_daily_reward := max_reward }
    | none => pool
  let pool := match is_active with
    | some active => { pool with is_active := active }
    | none => pool
  pool

/-- `emergency_withdraw`: the instruction borrows the pool immutably
(`let pool = &ctx.accounts.reward_pool`), performs only the token
transfer, and writes no account field; the `.ok` payload returns the
(unchanged) pool and the transferred amount. -/
def emergency_withdraw (pool : RewardPool) (amount : Nat)
    (transfer_ok : Bool) : Except ErrorKind (RewardPool × Nat) :=
  if transfer_ok then .ok (pool, amount) else .error .transferFailed

/-- Seed material of a program-derived address: a byte-string tag or a
pubkey. -/
inductive Seed where
  | tag (s : String)
  | key (k : Pubkey)
deriving DecidableEq, Repr

/-- PDA seeds of a `RewardPool`:
`[b"reward_pool", authority.key().as_ref()]`. -/
def reward_pool_seeds (pool_authority : Pubkey) : List Seed :=
  [.tag "reward_pool", .key pool_authority]

/-- PDA seeds of a `UserAccount` as the source derives them in
`RegisterUser`, `CalculateRewards` and `ClaimRewards`:
`[b"user_account", authority.key().as_ref()]` — the pool does not occur. -/
def user_account_seeds (user_authority : Pubkey) : List Seed :=
  [.tag "user_account", .key user_authority]

/-- Key the `RegisterUser` context derives for the new user account.  The
context has both the reward pool and the participant authority in scope,
but the seeds of `user_account` use only the participant authority. -/
def register_user_account_key (pool : RewardPool)
    (user_authority : Pubkey) : List Seed :=
  user_account_seeds user_authority

/-- Modelled from the spec: the spec's claimed derivation of a
`UserAccount` key "from (pool, participant authority)" — it would include
the pool's identity in the seeds.  Stated only to compare with the
source's `user_account_seeds`. -/
def user_account_key_per_spec (pool : RewardPool)
    (user_authority : Pubkey) : List Seed :=
  [.tag "user_account", .key pool.authority, .key user_authority]

/-- Whole-system state for trace-level claims: one pool and the user
accounts registered under it. -/
structure SysState where
  pool : RewardPool
  users : List UserAccount
deriving DecidableEq, Repr

/-- One transition of the system: a user registration or a (possibly
failing) claim.  A transition exists only when the instruction returns
`.ok`; a failing instruction leaves the state unchanged (no transition). -/
inductive Step : SysState → SysState → Prop where
  | register (s : SysState) (auth : Pubkey) (now : Int) (bump : Nat)
      (u : UserAccount) (p : RewardPool) :
      register_user auth s.pool now bump = .ok (u, p) →
      Step s ⟨p, s.users ++ [u]⟩
  | claim (s : SysState) (i : Nat) (hi : i < s.users.length) (now : Int)
      (expected_amount : Nat) (transfer_ok : Bool)
      (u : UserAccount) (p : RewardPool) (a : Nat) :
      claim_rewards s.pool (s.users.get ⟨i, hi⟩) now expected_amount
        transfer_ok = .ok (u, p, a) →
      Step s ⟨p, s.users.set i u⟩

/-- States reachable from a freshly initialized pool by registrations and
successful claims. -/
inductive Reachable : SysState → Prop where
  | init (authority mint vault rate interval max_daily : Nat) (now : Int)
      (bump : Nat) :
      Reachable ⟨initialize_pool authority mint vault rate interval
        max_daily now bump, []⟩
  | step (s t : SysState) : Reachable s → Step s t → Reachable t

/-- Reference timestamp of the accrual computation: registration time
while `last_claim_timestamp` is the 0 sentinel, the last claim time
afterwards. -/
def claim_reference (user : UserAccount) : Int :=
  if user.last_claim_timestamp = 0 then user.registration_timestamp
  else user.last_claim_timestamp

/-- `emergency_withdraw` at system-state level: the instruction's account
context contains no `UserAccount`, so the user list cannot be touched. -/
def emergency_withdraw_state (s : SysState) (amount : Nat)
    (transfer_ok : Bool) : Except ErrorKind (SysState × Nat) :=
  match emergency_withdraw s.pool amount transfer_ok with
  | .error e => .error e
  | .ok (p, a) => .ok (⟨p, s.users⟩, a)

/-- Concrete pool of the spec's worked scenario:
`rate=100`, `min_interval=24`, `max_daily=2000`. -/
def scenario_pool : RewardPool :=
  { authority := 1
    mint := 2
    vault := 3
    reward_rate_per_hour := 100
    min_claim_interval_hours := 24
    max_daily_reward := 2000
    total_distributed := 0
    participant_count := 1
    is_active := true
    created_at := 0
    bump := 251 }

/-- Concrete user of the spec's worked scenario, registered at `t=0` and
never having claimed. -/
def scenario_user : UserAccount :=
  { authority := 7
    total_earned := 0
    total_claims := 0
    last_claim_timestamp := 0
    registration_timestamp := 0
    is_active := true
    bump := 252 }

/-- `scenario_user` after its first successful claim of 2000 at `t=24h`. -/
def scenario_user_after : UserAccount :=
  { scenario_user with
      total_earned := 2000
      total_claims := 1
      last_claim_timestamp := 86400 }

/-- `scenario_pool` after distributing 2000. -/
def scenario_pool_after : RewardPool :=
  { scenario_pool with total_distributed := 2000 }

/-- A one-user system state built from the scenario records. -/
def scenario_state : SysState := ⟨scenario_pool, [scenario_user]⟩

/-- Pool with rate 1 and cap 1000, used for the negative-elapsed-time
inputs. -/
def pool_neg : RewardPool :=
  { scenario_pool with reward_rate_per_hour := 1, max_daily_reward := 1000 }

/-- User registered at `t=7200` who never claimed; at `now=3600` the
elapsed time is negative. -/
def user_neg : UserAccount :=
  { scenario_user with registration_timestamp := 7200 }

/-- Pool whose rate makes `elapsed_hours * rate` overflow `u64` at
`now = 2^32` hours. -/
def pool_ovf : RewardPool :=
  { scenario_pool with
      reward_rate_per_hour := 2 ^ 32
      min_claim_interval_hours := 1
      max_daily_reward := 5 }

/-- A pool whose authority is 11. -/
def pool_a : RewardPool := { scenario_pool with authority := 11 }

/-- A pool whose authority is 12, distinct from `pool_a`. -/
def pool_b : RewardPool := { scenario_pool with authority := 12 }

/-- Characterization of a successful `calculate_rewards`. -/
theorem calculate_rewards_ok_iff (pool : RewardPool) (user : UserAccount)
    (now : Int) (v : Nat) :
    calculate_rewards pool user now = .ok v ↔
      pool.is_active = true ∧ user.is_active = true ∧
      pool.min_claim_interval_hours ≤ hours_since_last_claim user now ∧
      hours_since_last_claim user now * pool.reward_rate_per_hour < U64_MOD ∧
      v = min (hours_since_last_claim user now * pool.reward_rate_per_hour)
            pool.max_daily_reward := by
  by_cases hp : pool.is_active <;> by_cases hu : user.is_active <;>
    by_cases hl : hours_since_last_claim user now <
        pool.min_claim_interval_hours <;>
    by_cases hm : hours_since_last_claim user now *
        pool.reward_rate_per_hour < U64_MOD <;>
    simp [calculate_rewards, u64_checked_mul, hp, hu, hl, hm, eq_comm] <;>
    omega

/-- Inversion of a successful `claim_rewards`: every gate passed, and the
new records are the old ones with exactly the specified counter and
timestamp updates. -/
theorem claim_rewards_ok_spec (pool : RewardPool) (user : UserAccount)
    (now : Int) (expected_amount : Nat) (transfer_ok : Bool)
    (u : UserAccount) (p : RewardPool) (a : Nat)
    (h : claim_rewards pool user now expected_amount transfer_ok =
      .ok (u, p, a)) :
    pool.is_active = true ∧ user.is_active = true ∧
    pool.min_claim_interval_hours ≤ hours_since_last_claim user now ∧
    hours_since_last_claim user now * pool.reward_rate_per_hour < U64_MOD ∧
    a = min (hours_since_last_claim user now * pool.reward_rate_per_hour)
          pool.max_daily_reward ∧
    expected_amount = a ∧ 0 < a ∧ transfer_ok = true ∧
    user.total_earned + a < U64_MOD ∧ user.total_claims + 1 < U64_MOD ∧
    pool.total_distributed + a < U64_MOD ∧
    u = { user with
            total_earned := user.total_earned + a
            total_claims := user.total_claims + 1
            last_claim_timestamp := now } ∧
    p = { pool with total_distributed := pool.total_distributed + a } := by
  by_cases hp : pool.is_active
  case neg => simp [claim_rewards, hp] at h
  by_cases hu : user.is_active
  case neg => simp [claim_rewards, hp, hu] at h
  by_cases hl : hours_since_last_claim user now < pool.min_claim_interval_hours
  case pos => simp [claim_rewards, hp, hu, hl] at h
  by_cases hm : hours_since_last_claim user now * pool.reward_rate_per_hour < U64_MOD
  case neg => simp [claim_rewards, u64_checked_mul, hp, hu, hl, hm] at h
  simp [claim_rewards, u64_checked_mul, hp, hu, hl, hm] at h
  by_cases he : expected_amount = hours_since_last_claim user now * pool.reward_rate_per_hour ⊓ pool.max_daily_reward
  case neg => simp [he] at h
  by_cases hz : (0 < hours_since_last_claim user now ∧ 0 < pool.reward_rate_per_hour) ∧ 0 < pool.max_daily_reward
  case neg => simp [he, hz] at h
  cases transfer_ok with
  | false => simp [he, hz] at h
  | true =>
  by_cases hte : user.total_earned + (hours_since_last_claim user now * pool.reward_rate_per_hour ⊓ pool.max_daily_reward) < U64_MOD
  case neg => simp [u64_checked_add, he, hz, hte] at h
  by_cases htc : user.total_claims + 1 < U64_MOD
  case neg => simp [u64_checked_add, he, hz, hte, htc] at h
  by_cases htd : pool.total_distributed + (hours_since_last_claim user now * pool.reward_rate_per_hour ⊓ pool.max_daily_reward) < U64_MOD
  case neg => simp [u64_checked_add, he, hz, hte, htc, htd] at h
  simp [u64_checked_add, he, hz, hte, htc, htd] at h
  obtain ⟨hu2, hp2, ha⟩ := h
  subst ha
  subst hu2
  subst hp2
  have hmul : 0 < hours_since_last_claim user now * pool.reward_rate_per_hour :=
    Nat.mul_pos hz.1.1 hz.1.2
  refine ⟨hp, hu, by omega, hm, by omega, he, by omega, rfl, hte, htc, htd,
    ?_, ?_⟩
  · simp [hu]
  · simp [hp]

/-- Inversion of a successful `register_user`: the fresh user record and
the pool with its participant count bumped. -/
theorem register_user_ok_spec (authority : Pubkey) (pool : RewardPool)
    (now : Int) (bump : Nat) (u : UserAccount) (p : RewardPool)
    (h : register_user authority pool now bump = .ok (u, p)) :
    pool.participant_count + 1 < U64_MOD ∧
    u = { authority := authority
          total_earned := 0
          total_claims := 0
          last_claim_timestamp := 0
          registration_timestamp := now
          is_active := true
          bump := bump } ∧
    p = { pool with participant_count := pool.participant_count + 1 } := by
  by_cases hc : pool.participant_count + 1 < U64_MOD
  · simp [register_user, u64_checked_add, hc] at h
    exact ⟨hc, h.1.symm, h.2.symm⟩
  · simp [register_user, u64_checked_add, hc] at h

/-- With a failing token transfer, `claim_rewards` returns an error in
every case: the `?` on the transfer CPI aborts before any account field
is written. -/
theorem claim_rewards_transfer_fail (pool : RewardPool)
    (user : UserAccount) (now : Int) (expected_amount : Nat) :
    ∃ e, claim_rewards pool user now expected_amount false =
      .error e := by
  cases hres : claim_rewards pool user now expected_amount false with
  | error e => exact ⟨e, rfl⟩
  | ok x =>
    obtain ⟨u, p, a⟩ := x
    have hspec := claim_rewards_ok_spec pool user now expected_amount
      false u p a hres
    have hft := hspec.2.2.2.2.2.2.2.1
    simp at hft

/-- Summation bookkeeping for one in-place list update. -/
theorem sum_set_nat (l : List Nat) (i : Nat) (hi : i < l.length)
    (v : Nat) :
    (l.set i v).sum + l.get ⟨i, hi⟩ = l.sum + v := by
  induction l generalizing i with
  | nil => simp at hi
  | cons x xs ih =>
    cases i with
    | zero => simp [List.set]; omega
    | succ j =>
      have hj : j < xs.length := by simpa using hi
      have hx := ih j hj
      simp [List.set] at hx ⊢
      omega

/-- Summation bookkeeping for one in-place user update. -/
theorem sum_map_set (l : List UserAccount) (i : Nat) (hi : i < l.length)
    (u : UserAccount) :
    ((l.set i u).map UserAccount.total_earned).sum +
        (l.get ⟨i, hi⟩).total_earned
      = (l.map UserAccount.total_earned).sum + u.total_earned := by
  have hlen : i < (l.map UserAccount.total_earned).length := by simpa using hi
  have hx := sum_set_nat (l.map UserAccount.total_earned) i hlen
    u.total_earned
  rw [← List.map_set] at hx
  simpa using hx

/-- Truncating division followed by the wrapping cast agrees with plain
`Nat` floor division on a nonnegative difference below `2 ^ 64`. -/
theorem tdiv_cast_of_nonneg (d : Int) (h0 : 0 ≤ d)
    (hb : d < (U64_MOD : Int)) :
    ((d.tdiv 3600) % (U64_MOD : Int)).toNat = d.toNat / 3600 := by
  have hb2 : d < 2 ^ 64 := by simpa [U64_MOD] using hb
  obtain ⟨n, rfl⟩ := Int.eq_ofNat_of_zero_le h0
  have h1 : (↑n : Int).tdiv 3600 = ↑(n / 3600) := rfl
  have h2 : n / 3600 ≤ n := Nat.div_le_self n 3600
  have h3 : (↑(n / 3600) : Int) < 2 ^ 64 := by omega
  have h4 : ((U64_MOD : Nat) : Int) = 2 ^ 64 := by simp [U64_MOD]
  rw [h1, h4, Int.emod_eq_of_lt (by positivity) h3, Int.toNat_ofNat]
  simp

/-- On a nonnegative elapsed time below `2 ^ 64` seconds, the source's
elapsed-hours computation is plain floor division by 3600. -/
theorem hours_since_last_claim_of_nonneg (user : UserAccount) (now : Int)
    (h0 : claim_reference user ≤ now)
    (hb : now - claim_reference user < (U64_MOD : Int)) :
    hours_since_last_claim user now =
      (now - claim_reference user).toNat / 3600 := by
  by_cases hs : user.last_claim_timestamp = 0
  · have hr : claim_reference user = user.registration_timestamp := by
      simp [claim_reference, hs]
    rw [hr] at h0 hb ⊢
    unfold hours_since_last_claim i64_as_u64
    rw [if_pos hs]
    exact tdiv_cast_of_nonneg _ (by omega) hb
  · have hr : claim_reference user = user.last_claim_timestamp := by
      simp [claim_reference, hs]
    rw [hr] at h0 hb ⊢
    unfold hours_since_last_claim i64_as_u64
    rw [if_neg hs]
    exact tdiv_cast_of_nonneg _ (by omega) hb

/-- Characterization of the `ClaimTooSoon` failure of
`calculate_rewards`. -/
theorem calculate_rewards_claimTooSoon_iff (pool : RewardPool)
    (user : UserAccount) (now : Int) :
    calculate_rewards pool user now = .error .claimTooSoon ↔
      pool.is_active = true ∧ user.is_active = true ∧
      hours_since_last_claim user now < pool.min_claim_interval_hours := by
  by_cases hp : pool.is_active <;> by_cases hu : user.is_active <;>
    by_cases hl : hours_since_last_claim user now <
        pool.min_claim_interval_hours <;>
    by_cases hm : hours_since_last_claim user now *
        pool.reward_rate_per_hour < U64_MOD <;>
    simp [calculate_rewards, u64_checked_mul, hp, hu, hl, hm]

/-- The inline recomputation in `claim_rewards` is the identical
algorithm as `calculate_rewards`: the claim path refines the advisory
path before validating the caller's expectation. -/
theorem claim_rewards_def_eq (pool : RewardPool) (user : UserAccount)
    (now : Int) (expected_amount : Nat) (transfer_ok : Bool) :
    claim_rewards pool user now expected_amount transfer_ok =
      match calculate_rewards pool user now with
      | .error e => .error e
      | .ok reward_amount =>
        if expected_amount = reward_amount then
          if reward_amount > 0 then
            if transfer_ok then
              match u64_checked_add user.total_earned reward_amount with
              | none => .error .arithmeticOverflow
              | some te =>
                match u64_checked_add user.total_claims 1 with
                | none => .error .arithmeticOverflow
                | some tc =>
                  match u64_checked_add pool.total_distributed
                      reward_amount with
                  | none => .error .arithmeticOverflow
                  | some td =>
                    .ok ({ user with
                            total_earned := te
                            total_claims := tc
                            last_claim_timestamp := now },
                         { pool with total_distributed := td },
                         reward_amount)
            else .error .transferFailed
          else .error .noRewardsAvailable
        else .error .amountMismatch := by
  by_cases hp : pool.is_active <;> by_cases hu : user.is_active <;>
    by_cases hl : hours_since_last_claim user now <
        pool.min_claim_interval_hours <;>
    by_cases hm : hours_since_last_claim user now *
        pool.reward_rate_per_hour < U64_MOD <;>
    simp [claim_rewards, calculate_rewards, u64_checked_mul, hp, hu, hl,
      hm]

/-- C1, counterexample.  The claim's floor-division formula and its
"otherwise returns min(...)" clause both fail on the code.  First input:
`user_neg` registered at `t=7200`, queried at `now=3600` — the claim's
elapsed hours `floor((3600-7200)/3600) = -1` is below the 24-hour
interval, so the claim demands `ClaimTooSoon`, yet the code returns
`.ok 1000` (the negative quotient wraps to `2^64 - 1`).  Second input:
`pool_ovf` at `now = 2^32` hours — the gate passes and the claim demands
`min(2^32 * 2^32, 5) = 5`, yet the code fails with the overflow panic. -/
theorem c1_counterexample :
    (Int.fdiv (3600 - 7200) 3600 <
        (pool_neg.min_claim_interval_hours : Int)) ∧
    calculate_rewards pool_neg user_neg 3600 = .ok 1000 ∧
    pool_ovf.min_claim_interval_hours ≤
      hours_since_last_claim scenario_user (2 ^ 32 * 3600) ∧
    calculate_rewards pool_ovf scenario_user (2 ^ 32 * 3600) =
      .error .arithmeticOverflow ∧
    calculate_rewards pool_ovf scenario_user (2 ^ 32 * 3600) ≠
      .ok (min (2 ^ 32 * 2 ^ 32) 5) := by
  refine ⟨by decide, by decide, by decide, by decide, by decide⟩

/-- C1, amended: for every pool and user with both activity flags true,
and with `now` at or after the reference timestamp (registration when
`last_claim_timestamp == 0`, last claim otherwise) by less than `2^63`
seconds (so the source's `i64` subtraction cannot overflow),
`calculate_rewards` fails with `ClaimTooSoon` exactly when
`floor((now - reference) / 3600) < min_claim_interval_hours`, and when
the gate passes and `elapsed_hours * reward_rate_per_hour` does not
overflow `u64` it returns
`min(elapsed_hours * reward_rate_per_hour, max_daily_reward)`. -/
theorem c1_amended (pool : RewardPool) (user : UserAccount) (now : Int)
    (hp : pool.is_active = true) (hu : user.is_active = true)
    (h0 : claim_reference user ≤ now)
    (hb : now - claim_reference user < 2 ^ 63) :
    (calculate_rewards pool user now = .error .claimTooSoon ↔
      (now - claim_reference user).toNat / 3600 <
        pool.min_claim_interval_hours) ∧
    (pool.min_claim_interval_hours ≤
        (now - claim_reference user).toNat / 3600 →
      (now - claim_reference user).toNat / 3600 *
          pool.reward_rate_per_hour < U64_MOD →
      calculate_rewards pool user now =
        .ok (min ((now - claim_reference user).toNat / 3600 *
          pool.reward_rate_per_hour) pool.max_daily_reward)) := by
  have hb2 : now - claim_reference user < (U64_MOD : Int) := by
    have h64 : ((U64_MOD : Nat) : Int) = 2 ^ 64 := by norm_num [U64_MOD]
    omega
  have hh := hours_since_last_claim_of_nonneg user now h0 hb2
  rw [← hh]
  constructor
  · rw [calculate_rewards_claimTooSoon_iff]
    simp [hp, hu]
  · intro hge hlt
    rw [calculate_rewards_ok_iff]
    exact ⟨hp, hu, hge, hlt, rfl⟩

/-- C1, witness for the amended theorem at the spec's worked scenario:
registration at `t=0`, query at `t=24h`, rate 100, cap 2000. -/
theorem c1_amended_witness :
    claim_reference scenario_user ≤ 86400 ∧
    calculate_rewards scenario_pool scenario_user 86400 =
      .ok (min ((86400 - claim_reference scenario_user).toNat / 3600 *
        scenario_pool.reward_rate_per_hour)
        scenario_pool.max_daily_reward) :=
  ⟨by decide,
    (c1_amended scenario_pool scenario_user 86400 (by decide) (by decide)
      (by decide) (by decide)).2 (by decide) (by decide)⟩

/-- C2: with a failing token transfer, `claim_rewards` returns an error
for every input, and never returns a new user account or pool — in this
embedding mutated state exists only inside the `.ok` payload, so no field
of either record is committed. -/
theorem c2_atomic_on_transfer_failure (pool : RewardPool)
    (user : UserAccount) (now : Int) (expected_amount : Nat) :
    (∃ e, claim_rewards pool user now expected_amount false = .error e) ∧
    ∀ u p a, claim_rewards pool user now expected_amount false ≠
      .ok (u, p, a) := by
  obtain ⟨e, he⟩ := claim_rewards_transfer_fail pool user now
    expected_amount
  refine ⟨⟨e, he⟩, fun u p a hok => ?_⟩
  rw [he] at hok
  exact Except.noConfusion hok

/-- C2, witness at the worked scenario (a claim that would succeed,
except that the transfer fails). -/
theorem c2_witness :
    ∃ e, claim_rewards scenario_pool scenario_user 86400 2000 false =
      .error e :=
  (c2_atomic_on_transfer_failure scenario_pool scenario_user 86400
    2000).1

/-- C5, counterexample.  Two pools with distinct authorities give the
registration context the same derived user-account key — the source's
seeds are `[b"user_account", authority]`, without the pool — while the
spec's claimed derivation from (pool, participant) distinguishes them.
One participant therefore cannot hold a distinct `UserAccount` per
pool. -/
theorem c5_counterexample :
    pool_a ≠ pool_b ∧ pool_a.authority ≠ pool_b.authority ∧
    register_user_account_key pool_a 7 =
      register_user_account_key pool_b 7 ∧
    user_account_key_per_spec pool_a 7 ≠
      user_account_key_per_spec pool_b 7 := by
  refine ⟨by decide, by decide, by decide, by decide⟩

/-- C5, amended: the durable-store key of a `UserAccount` is derived from
the participant authority alone (`[b"user_account", authority]`); it is
independent of the pool, so one participant holds a single `UserAccount`
shared across all pools, and `calculate_rewards`/`claim_rewards` bind the
account to the signer, not to the pool it was registered under. -/
theorem c5_amended (pool1 pool2 : RewardPool) (user_authority : Pubkey) :
    register_user_account_key pool1 user_authority =
      user_account_seeds user_authority ∧
    register_user_account_key pool1 user_authority =
      register_user_account_key pool2 user_authority :=
  ⟨rfl, rfl⟩

/-- C8: each optional parameter of `update_pool_config` acts
independently — `none` leaves the corresponding field unchanged, `some v`
replaces it with `v` unconditionally — and no other pool field is
modified. -/
theorem c8_update_pool_config_frame (pool : RewardPool)
    (rate_opt interval_opt max_opt : Option Nat)
    (active_opt : Option Bool) :
    (update_pool_config pool rate_opt interval_opt max_opt
        active_opt).reward_rate_per_hour =
      rate_opt.getD pool.reward_rate_per_hour ∧
    (update_pool_config pool rate_opt interval_opt max_opt
        active_opt).min_claim_interval_hours =
      interval_opt.getD pool.min_claim_interval_hours ∧
    (update_pool_config pool rate_opt interval_opt max_opt
        active_opt).max_daily_reward =
      max_opt.getD pool.max_daily_reward ∧
    (update_pool_config pool rate_opt interval_opt max_opt
        active_opt).is_active =
      active_opt.getD pool.is_active ∧
    (update_pool_config pool rate_opt interval_opt max_opt
        active_opt).authority = pool.authority ∧
    (update_pool_config pool rate_opt interval_opt max_opt
        active_opt).mint = pool.mint ∧
    (update_pool_config pool rate_opt interval_opt max_opt
        active_opt).vault = pool.vault ∧
    (update_pool_config pool rate_opt interval_opt max_opt
        active_opt).total_distributed = pool.total_distributed ∧
    (update_pool_config pool rate_opt interval_opt max_opt
        active_opt).participant_count = pool.participant_count ∧
    (update_pool_config pool rate_opt interval_opt max_opt
        active_opt).created_at = pool.created_at ∧
    (update_pool_config pool rate_opt interval_opt max_opt
        active_opt).bump = pool.bump := by
  cases rate_opt <;> cases interval_opt <;> cases max_opt <;>
    cases active_opt <;> simp [update_pool_config]

/-- C10: at `now = 3600` with registration at `t = 7200` (reference in
the future, never claimed), the negative quotient `(-3600)/3600 = -1`
wraps through the `as u64` cast to `2^64 - 1` elapsed hours, which passes
the 24-hour interval gate; both `calculate_rewards` and `claim_rewards`
then proceed — the code neither treats the elapsed time as zero nor fails
cleanly. -/
theorem c10_negative_elapsed_wraps :
    (3600 : Int) < user_neg.registration_timestamp ∧
    user_neg.last_claim_timestamp = 0 ∧
    ((3600 - user_neg.registration_timestamp).tdiv 3600) = -1 ∧
    hours_since_last_claim user_neg 3600 = U64_MOD - 1 ∧
    pool_neg.min_claim_interval_hours ≤
      hours_since_last_claim user_neg 3600 ∧
    calculate_rewards pool_neg user_neg 3600 = .ok 1000 ∧
    claim_rewards pool_neg user_neg 3600 1000 true =
      .ok ({ user_neg with
              total_earned := 1000
              total_claims := 1
              last_claim_timestamp := 3600 },
           { pool_neg with total_distributed := 1000 }, 1000) := by
  refine ⟨by decide, by decide, by decide, by decide, by decide,
    by decide, by decide⟩

/-- C3: every successful `claim_rewards` with recomputed amount `a`
transfers `a` (the amount of the `.ok` payload handed to the CPI),
increments `user.total_earned` by `a` and `user.total_claims` by 1, sets
`user.last_claim_timestamp = now`, increments `pool.total_distributed` by
`a`, and changes no other field of either record; the amount equals what
`calculate_rewards` returns. -/
theorem c3_claim_success_effects (pool : RewardPool) (user : UserAccount)
    (now : Int) (expected_amount : Nat) (transfer_ok : Bool)
    (u : UserAccount) (p : RewardPool) (a : Nat)
    (h : claim_rewards pool user now expected_amount transfer_ok =
      .ok (u, p, a)) :
    calculate_rewards pool user now = .ok a ∧
    u.total_earned = user.total_earned + a ∧
    u.total_claims = user.total_claims + 1 ∧
    u.last_claim_timestamp = now ∧
    p.total_distributed = pool.total_distributed + a ∧
    u.authority = user.authority ∧
    u.registration_timestamp = user.registration_timestamp ∧
    u.is_active = user.is_active ∧
    u.bump = user.bump ∧
    p.authority = pool.authority ∧
    p.mint = pool.mint ∧
    p.vault = pool.vault ∧
    p.reward_rate_per_hour = pool.reward_rate_per_hour ∧
    p.min_claim_interval_hours = pool.min_claim_interval_hours ∧
    p.max_daily_reward = pool.max_daily_reward ∧
    p.participant_count = pool.participant_count ∧
    p.is_active = pool.is_active ∧
    p.created_at = pool.created_at ∧
    p.bump = pool.bump := by
  obtain ⟨hp, hu, hl, hm, ha, he, hz, ht, hte, htc, htd, hueq, hpeq⟩ :=
    claim_rewards_ok_spec pool user now expected_amount transfer_ok
      u p a h
  subst hueq
  subst hpeq
  refine ⟨?_, rfl, rfl, rfl, rfl, rfl, rfl, rfl, rfl, rfl, rfl, rfl,
    rfl, rfl, rfl, rfl, rfl, rfl, rfl⟩
  rw [calculate_rewards_ok_iff]
  exact ⟨hp, hu, hl, hm, ha⟩

/-- C3, witness: the spec's worked scenario claim at `t=24h`. -/
theorem c3_witness :
    claim_rewards scenario_pool scenario_user 86400 2000 true =
      .ok (scenario_user_after, scenario_pool_after, 2000) ∧
    calculate_rewards scenario_pool scenario_user 86400 = .ok 2000 ∧
    scenario_user_after.total_earned =
      scenario_user.total_earned + 2000 ∧
    scenario_pool_after.total_distributed =
      scenario_pool.total_distributed + 2000 :=
  ⟨by decide,
    (c3_claim_success_effects scenario_pool scenario_user 86400 2000
      true scenario_user_after scenario_pool_after 2000 (by decide)).1,
    (c3_claim_success_effects scenario_pool scenario_user 86400 2000
      true scenario_user_after scenario_pool_after 2000 (by decide)).2.1,
    (c3_claim_success_effects scenario_pool scenario_user 86400 2000
      true scenario_user_after scenario_pool_after 2000
      (by decide)).2.2.2.2.1⟩

/-- C7: once the activity and interval gates pass (so the amount `a` is
recomputed successfully), any `expected_amount ≠ a` makes `claim_rewards`
fail with `AmountMismatch`, for every transfer outcome — the comparison
is exact, with no tolerance band. -/
theorem c7_amount_mismatch (pool : RewardPool) (user : UserAccount)
    (now : Int) (expected_amount : Nat) (transfer_ok : Bool) (a : Nat)
    (hca : calculate_rewards pool user now = .ok a)
    (hne : expected_amount ≠ a) :
    claim_rewards pool user now expected_amount transfer_ok =
      .error .amountMismatch := by
  rw [claim_rewards_def_eq, hca]
  simp [hne]

/-- C7, witness: an `expected_amount` of 1999 against a recomputed 2000
in the worked scenario. -/
theorem c7_witness :
    calculate_rewards scenario_pool scenario_user 86400 = .ok 2000 ∧
    claim_rewards scenario_pool scenario_user 86400 1999 true =
      .error .amountMismatch :=
  ⟨by decide,
    c7_amount_mismatch scenario_pool scenario_user 86400 1999 true 2000
      (by decide) (by decide)⟩

/-- C6: overflow of the reward multiplication or of any counter
increment (`total_earned`, `total_claims`, `total_distributed`,
`participant_count`) makes the operation fail with the arithmetic
overflow outcome; a successful result is never a wrapped or saturated
value — the only reduction applied is the `min` with
`max_daily_reward`. -/
theorem c6_overflow_hard_failure (pool : RewardPool) (user : UserAccount)
    (now : Int) (expected_amount : Nat) (transfer_ok : Bool)
    (authority : Pubkey) (bump : Nat) (a : Nat) :
    (pool.is_active = true → user.is_active = true →
      pool.min_claim_interval_hours ≤ hours_since_last_claim user now →
      U64_MOD ≤ hours_since_last_claim user now *
        pool.reward_rate_per_hour →
      calculate_rewards pool user now = .error .arithmeticOverflow) ∧
    (pool.is_active = true → user.is_active = true →
      pool.min_claim_interval_hours ≤ hours_since_last_claim user now →
      U64_MOD ≤ hours_since_last_claim user now *
        pool.reward_rate_per_hour →
      claim_rewards pool user now expected_amount transfer_ok =
        .error .arithmeticOverflow) ∧
    (U64_MOD ≤ pool.participant_count + 1 →
      register_user authority pool now bump =
        .error .arithmeticOverflow) ∧
    (calculate_rewards pool user now = .ok a →
      hours_since_last_claim user now * pool.reward_rate_per_hour <
          U64_MOD ∧
      a = min (hours_since_last_claim user now *
          pool.reward_rate_per_hour) pool.max_daily_reward) ∧
    (calculate_rewards pool user now = .ok a → expected_amount = a →
      0 < a →
      (U64_MOD ≤ user.total_earned + a ∨
        U64_MOD ≤ user.total_claims + 1 ∨
        U64_MOD ≤ pool.total_distributed + a) →
      claim_rewards pool user now expected_amount true =
        .error .arithmeticOverflow) := by
  refine ⟨?_, ?_, ?_, ?_, ?_⟩
  · intro hp hu hl hm
    have hl2 : ¬ hours_since_last_claim user now <
        pool.min_claim_interval_hours := by omega
    have hm2 : ¬ hours_since_last_claim user now *
        pool.reward_rate_per_hour < U64_MOD := by omega
    simp [calculate_rewards, u64_checked_mul, hp, hu, hl2, hm2]
  · intro hp hu hl hm
    have hl2 : ¬ hours_since_last_claim user now <
        pool.min_claim_interval_hours := by omega
    have hm2 : ¬ hours_since_last_claim user now *
        pool.reward_rate_per_hour < U64_MOD := by omega
    simp [claim_rewards, u64_checked_mul, hp, hu, hl2, hm2]
  · intro hc
    have hc2 : ¬ pool.participant_count + 1 < U64_MOD := by omega
    simp [register_user, u64_checked_add, hc2]
  · intro h
    rw [calculate_rewards_ok_iff] at h
    exact ⟨h.2.2.2.1, h.2.2.2.2⟩
  · intro hca he hz hov
    subst he
    rw [claim_rewards_def_eq, hca]
    rcases hov with h1 | h2 | h3
    · have h1b : ¬ user.total_earned + expected_amount < U64_MOD := by
        omega
      simp [u64_checked_add, hz, h1b]
    · have h2b : ¬ user.total_claims + 1 < U64_MOD := by omega
      by_cases hte : user.total_earned + expected_amount < U64_MOD <;>
        simp [u64_checked_add, hz, hte, h2b]
    · have h3b : ¬ pool.total_distributed + expected_amount < U64_MOD :=
        by omega
      by_cases hte : user.total_earned + expected_amount < U64_MOD <;>
        by_cases htc : user.total_claims + 1 < U64_MOD <;>
        simp [u64_checked_add, hz, hte, htc, h3b]

/-- C6, witness: an overflowing multiplication (`2^32` elapsed hours at
rate `2^32`) makes `calculate_rewards` fail with the overflow outcome. -/
theorem c6_witness :
    U64_MOD ≤ hours_since_last_claim scenario_user (2 ^ 32 * 3600) *
      pool_ovf.reward_rate_per_hour ∧
    calculate_rewards pool_ovf scenario_user (2 ^ 32 * 3600) =
      .error .arithmeticOverflow :=
  ⟨by decide,
    (c6_overflow_hard_failure pool_ovf scenario_user (2 ^ 32 * 3600)
      0 true 0 0 0).1 (by decide) (by decide) (by decide) (by decide)⟩

/-- C9: `emergency_withdraw` performs only the token transfer: whether it
succeeds or fails, the pool (in particular `total_distributed`) and every
user account are left exactly as they were. -/
theorem c9_emergency_withdraw_frame (s : SysState) (amount : Nat)
    (transfer_ok : Bool) :
    (∀ t a, emergency_withdraw_state s amount transfer_ok =
        .ok (t, a) →
      t.pool.total_distributed = s.pool.total_distributed ∧
      t.pool = s.pool ∧ t.users = s.users ∧ a = amount) ∧
    (transfer_ok = false →
      emergency_withdraw_state s amount transfer_ok =
        .error .transferFailed) := by
  constructor
  · intro t a h
    cases transfer_ok <;>
      simp [emergency_withdraw_state, emergency_withdraw] at h
    obtain ⟨h1, h2⟩ := h
    subst h2
    refine ⟨?_, ?_, ?_, rfl⟩ <;> rw [← h1]
  · intro ht
    subst ht
    simp [emergency_withdraw_state, emergency_withdraw]

/-- C9, witness: a successful withdrawal of 500 from the scenario state
leaves the pool and the user list unchanged. -/
theorem c9_witness :
    emergency_withdraw_state scenario_state 500 true =
      .ok (scenario_state, 500) ∧
    (scenario_state.pool.total_distributed =
        scenario_state.pool.total_distributed ∧
      scenario_state.pool = scenario_state.pool ∧
      scenario_state.users = scenario_state.users ∧
      (500 : Nat) = 500) :=
  ⟨by decide,
    (c9_emergency_withdraw_frame scenario_state 500 true).1
      scenario_state 500 (by decide)⟩

/-- C4: in every state reachable from pool initialization by user
registrations and successful claims (no emergency withdrawals),
`pool.total_distributed` equals the sum of `total_earned` over the users
registered in that pool. -/
theorem c4_counter_conservation (s : SysState) (h : Reachable s) :
    s.pool.total_distributed =
      (s.users.map UserAccount.total_earned).sum := by
  induction h with
  | init authority mint vault rate interval max_daily now bump =>
    simp [initialize_pool]
  | step s t hs hstep ih =>
    cases hstep with
    | register auth now bump u p hreg =>
      obtain ⟨hc, hueq, hpeq⟩ :=
        register_user_ok_spec auth s.pool now bump u p hreg
      subst hueq
      subst hpeq
      simpa using ih
    | claim i hi now expected_amount transfer_ok u p a hclaim =>
      obtain ⟨hp, hu, hl, hm, ha, he, hz, ht, hte, htc, htd, hueq,
        hpeq⟩ := claim_rewards_ok_spec s.pool (s.users.get ⟨i, hi⟩) now
          expected_amount transfer_ok u p a hclaim
      subst hueq
      subst hpeq
      have hset := sum_map_set s.users i hi
        { s.users.get ⟨i, hi⟩ with
            total_earned := (s.users.get ⟨i, hi⟩).total_earned + a
            total_claims := (s.users.get ⟨i, hi⟩).total_claims + 1
            last_claim_timestamp := now }
      simp only at hset
      simp only [SysState.pool, SysState.users] at ih ⊢
      simp at hset ⊢
      omega

/-- C4, witness: the reachable state obtained by initializing a pool,
registering one user at `t=0`, and claiming 2000 at `t=24h`. -/
theorem c4_witness :
    (⟨scenario_pool_after, [scenario_user_after]⟩ :
        SysState).pool.total_distributed =
      ((⟨scenario_pool_after, [scenario_user_after]⟩ :
          SysState).users.map UserAccount.total_earned).sum :=
  c4_counter_conservation ⟨scenario_pool_after, [scenario_user_after]⟩
    (Reachable.step ⟨scenario_pool, [scenario_user]⟩
      ⟨scenario_pool_after, [scenario_user_after]⟩
      (Reachable.step ⟨initialize_pool 1 2 3 100 24 2000 0 251, []⟩
        ⟨scenario_pool, [scenario_user]⟩
        (Reachable.init 1 2 3 100 24 2000 0 251)
        (Step.register ⟨initialize_pool 1 2 3 100 24 2000 0 251, []⟩
          7 0 252 scenario_user scenario_pool (by decide)))
      (Step.claim ⟨scenario_pool, [scenario_user]⟩ 0 (by decide) 86400
        2000 true scenario_user_after scenario_pool_after 2000
        (by decide)))

end RewardSystem
